import Mathlib

/-!
Shallow embedding of `src/refraction.py`: two stateless functions computing the
complex refractive index of liquid water (Liebe 1993) and of water ice
(Mätzler 2006), each guarded by a validity window on temperature and frequency.

Modelling conventions:
* The frequency grid is a `List ℚ` (the Python floats are rationals) and the
  temperature a `ℚ`, so that the guard comparisons of the source are decidable.
* One output row of the `(nf, 2)` result matrix is an `Option (ℝ × ℝ)`:
  `none` models the row left at its `np.nan` fill (both the real and the
  imaginary component are NaN), `some (re, im)` models a computed row.
* `np.sqrt` on a complex argument is the principal complex square root, which
  is `z ^ (1/2 : ℂ)` (Complex.cpow, principal branch, real part ≥ 0).
* `np.min` / `np.max` of a nonempty array are left folds of `min` / `max`;
  on an empty array `np.min` raises
  `ValueError: zero-size array to reduction operation minimum which has no identity`,
  which the embedding models with the `Except.error` branch carrying that text.
-/

/-- Constant `TEMP_0_C` of the source (`273.15`, both functions bind it). -/
def TEMP_0_C : ℚ := 273.15

/-- The message of the `ValueError` that `np.min` raises on an empty array. -/
def minEmptyMsg : String := "zero-size array to reduction operation minimum which has no identity"

/-- One row of the output matrix: `none` is the NaN/NaN fill, `some (re, im)`
a computed entry of column 0 (real part) and column 1 (imaginary part). -/
abbrev NRow := Option (ℝ × ℝ)

/-- Principal complex square root (`np.sqrt` on complex input). -/
noncomputable def csqrt (z : ℂ) : ℂ := z ^ ((1 : ℂ)/2)

/-- Complex permittivity formed in the loop body of `complex_n_water_liebe93`
(source lines 95–104): `theta`, `e0`, `e1`, `f1`, `e2`, `f2` as in the source,
then `e2 + (e1-e2)/(1 - i·f/f2) + (e0-e1)/(1 - i·f/f1)`. -/
noncomputable def waterEps (t f : ℚ) : ℂ :=
  let theta : ℝ := 1 - 300 / (t : ℝ)
  let e0 : ℝ := 77.66 - 103.3 * theta
  let e1 : ℝ := 0.0671 * e0
  let f1 : ℝ := 20.2 + 146 * theta + 316 * theta * theta
  let e2 : ℝ := 3.52
  let f2 : ℝ := 39.8 * f1
  let ifGHz : ℂ := 0 + Complex.I * (f : ℝ)
  (e2 : ℂ) + ((e1 : ℂ) - (e2 : ℂ)) / (1 - ifGHz / (f2 : ℂ)) +
    ((e0 : ℂ) - (e1 : ℂ)) / (1 - ifGHz / (f1 : ℂ))

/-- One computed row of `complex_n_water_liebe93`: real and imaginary part of
`np.sqrt` of the permittivity (source lines 104–107). -/
noncomputable def waterRow (t f : ℚ) : ℝ × ℝ :=
  ((csqrt (waterEps t f)).re, (csqrt (waterEps t f)).im)

/-- Embedding of `complex_n_water_liebe93` (source lines 75–108).
The array is first filled with NaN; if `t < TEMP_0_C - 40` or
`t > TEMP_0_C + 100` the fill is returned, then likewise if
`np.min(freq) < 10` or `np.max(freq) > 1000`; on an empty grid that reduction
raises; otherwise every row is overwritten with the computed value. -/
noncomputable def complex_n_water_liebe93 (freq : List ℚ) (t : ℚ) :
    Except String (List NRow) :=
  if t < TEMP_0_C - 40 ∨ t > TEMP_0_C + 100 then
    .ok (List.replicate freq.length none)
  else
    match freq with
    | [] => .error minEmptyMsg
    | f0 :: fs =>
      if fs.foldl min f0 < 10 ∨ fs.foldl max f0 > 1000 then
        .ok (List.replicate (f0 :: fs).length none)
      else
        .ok ((f0 :: fs).map fun f => some (waterRow t f))

/-- Complex permittivity formed in the loop body of `complex_n_ice_matzler06`
(source lines 160–178): constants `B1`, `B2`, `b`, then `deltabeta`, `ebdt`,
`betam`, `theta`, `alfa`, `reps`, and per frequency `beta`, `ieps`,
`eps = reps + i·ieps`. -/
noncomputable def iceEps (t f : ℚ) : ℂ :=
  let B1 : ℝ := 0.0207
  let B2 : ℝ := 1.16e-11
  let b : ℝ := 335
  let deltabeta : ℝ := Real.exp (-9.963 + 0.0372 * ((t : ℝ) - 273))
  let ebdt : ℝ := Real.exp (b / (t : ℝ))
  let betam : ℝ := (B1 / (t : ℝ)) * ebdt / ((ebdt - 1) * (ebdt - 1))
  let theta : ℝ := 300 / (t : ℝ) - 1
  let alfa : ℝ := (0.00504 + 0.0062 * theta) * Real.exp (-22.1 * theta)
  let reps : ℝ := 3.1884 + 9.1e-4 * ((t : ℝ) - 273)
  let beta : ℝ := betam + B2 * (f : ℝ) * (f : ℝ) + deltabeta
  let ieps : ℝ := alfa / (f : ℝ) + beta * (f : ℝ)
  (reps : ℂ) + Complex.I * (ieps : ℂ)

/-- One computed row of `complex_n_ice_matzler06` (source lines 179–181). -/
noncomputable def iceRow (t f : ℚ) : ℝ × ℝ :=
  ((csqrt (iceEps t f)).re, (csqrt (iceEps t f)).im)

/-- Embedding of `complex_n_ice_matzler06` (source lines 136–182); same shape
as the water model, with guards `t < 20 ∨ t > 280` and
`np.min(freq) < 0.01 ∨ np.max(freq) > 3000`. -/
noncomputable def complex_n_ice_matzler06 (freq : List ℚ) (t : ℚ) :
    Except String (List NRow) :=
  if t < 20 ∨ t > 280 then
    .ok (List.replicate freq.length none)
  else
    match freq with
    | [] => .error minEmptyMsg
    | f0 :: fs =>
      if fs.foldl min f0 < 0.01 ∨ fs.foldl max f0 > 3000 then
        .ok (List.replicate (f0 :: fs).length none)
      else
        .ok ((f0 :: fs).map fun f => some (iceRow t f))

/-- Spec-side static permittivity `e0 = 77.66 − 103.3·θ`, `θ = 1 − 300/T`
(spec §4.1), kept separate to state the T = 300 K instance of C3. -/
noncomputable def waterSpecE0 (T : ℝ) : ℝ := 77.66 - 103.3 * (1 - 300 / T)

/-- Spec-side relaxation frequency `f1 = 20.2 + 146·θ + 316·θ²` (spec §4.1). -/
noncomputable def waterSpecF1 (T : ℝ) : ℝ :=
  20.2 + 146 * (1 - 300 / T) + 316 * (1 - 300 / T) ^ 2

/-- Spec-side permittivity of §4.1, written from the spec text:
`ε(f) = e2 + (e1 − e2)/(1 − i·f/f2) + (e0 − e1)/(1 − i·f/f1)` with
`θ = 1 − 300/T`, `e0 = 77.66 − 103.3θ`, `e1 = 0.0671·e0`,
`f1 = 20.2 + 146θ + 316θ²`, `e2 = 3.52`, `f2 = 39.8·f1`. -/
noncomputable def waterSpecEps (T f : ℝ) : ℂ :=
  let theta : ℝ := 1 - 300 / T
  let e0 : ℝ := 77.66 - 103.3 * theta
  let e1 : ℝ := 0.0671 * e0
  let f1 : ℝ := 20.2 + 146 * theta + 316 * theta ^ 2
  let e2 : ℝ := 3.52
  let f2 : ℝ := 39.8 * f1
  (e2 : ℂ) + ((e1 : ℂ) - (e2 : ℂ)) / (1 - Complex.I * (f : ℂ) / (f2 : ℂ)) +
    ((e0 : ℂ) - (e1 : ℂ)) / (1 - Complex.I * (f : ℂ) / (f1 : ℂ))

/-- Spec-side frequency-independent real permittivity of ice,
`reps = 3.1884 + 9.1e−4·(T − 273)` (spec §4.2). -/
noncomputable def iceSpecReps (T : ℝ) : ℝ := 3.1884 + 9.1e-4 * (T - 273)

/-- Spec-side permittivity of §4.2, written from the spec text:
`ε(f) = reps + i·ieps`, `ieps = α/f + β·f`, `β = βm + B2·f² + Δβ`,
`Δβ = exp(−9.963 + 0.0372·(T−273))`, `βm = (B1/T)·e^(b/T)/(e^(b/T)−1)²`,
`θ = 300/T − 1`, `α = (0.00504 + 0.0062θ)·exp(−22.1θ)`, with
`B1 = 0.0207`, `B2 = 1.16e−11`, `b = 335`. -/
noncomputable def iceSpecEps (T f : ℝ) : ℂ :=
  let deltabeta : ℝ := Real.exp (-9.963 + 0.0372 * (T - 273))
  let betam : ℝ := (0.0207 / T) * Real.exp (335 / T) /
    ((Real.exp (335 / T) - 1) ^ 2)
  let theta : ℝ := 300 / T - 1
  let alfa : ℝ := (0.00504 + 0.0062 * theta) * Real.exp (-22.1 * theta)
  let beta : ℝ := betam + 1.16e-11 * f ^ 2 + deltabeta
  let ieps : ℝ := alfa / f + beta * f
  (iceSpecReps T : ℂ) + Complex.I * (ieps : ℂ)

theorem temp_lo : (TEMP_0_C - 40 : ℚ) = 233.15 := by norm_num [TEMP_0_C]

theorem temp_hi : (TEMP_0_C + 100 : ℚ) = 373.15 := by norm_num [TEMP_0_C]

theorem csqrt_re_nonneg (z : ℂ) : 0 ≤ (csqrt z).re := by
  unfold csqrt
  by_cases hz : z = 0
  · simp [hz, Complex.zero_cpow]
  · rw [Complex.cpow_def_of_ne_zero hz, Complex.exp_re]
    apply mul_nonneg (Real.exp_nonneg _)
    apply Real.cos_nonneg_of_mem_Icc
    have h1 := Complex.arg_le_pi z
    have h2 := Complex.neg_pi_lt_arg z
    constructor
    · simp only [Complex.mul_im, Complex.log_im]
      norm_num
      nlinarith
    · simp only [Complex.mul_im, Complex.log_im]
      norm_num
      nlinarith

theorem foldl_min_le_init (fs : List ℚ) (f0 : ℚ) : fs.foldl min f0 ≤ f0 := by
  induction fs generalizing f0 with
  | nil => exact le_refl _
  | cons x xs ih => exact le_trans (ih (min f0 x)) (min_le_left _ _)

theorem foldl_min_le (fs : List ℚ) (f0 : ℚ) {a : ℚ} (h : a ∈ f0 :: fs) :
    fs.foldl min f0 ≤ a := by
  induction fs generalizing f0 with
  | nil =>
    rcases List.mem_cons.1 h with rfl | h2
    · exact le_refl _
    · cases h2
  | cons x xs ih =>
    rcases List.mem_cons.1 h with rfl | h2
    · exact foldl_min_le_init _ _
    · rcases List.mem_cons.1 h2 with rfl | h3
      · exact le_trans (foldl_min_le_init xs (min f0 a)) (min_le_right _ _)
      · exact ih (min f0 x) (List.mem_cons_of_mem _ h3)

theorem water_compute (f0 : ℚ) (fs : List ℚ) (t : ℚ)
    (h1 : ¬(t < TEMP_0_C - 40 ∨ t > TEMP_0_C + 100))
    (h2 : ¬(fs.foldl min f0 < 10 ∨ fs.foldl max f0 > 1000)) :
    complex_n_water_liebe93 (f0 :: fs) t =
      .ok ((f0 :: fs).map fun f => some (waterRow t f)) := by
  unfold complex_n_water_liebe93
  rw [if_neg h1]
  exact if_neg h2

theorem ice_compute (f0 : ℚ) (fs : List ℚ) (t : ℚ)
    (h1 : ¬(t < 20 ∨ t > 280))
    (h2 : ¬(fs.foldl min f0 < 0.01 ∨ fs.foldl max f0 > 3000)) :
    complex_n_ice_matzler06 (f0 :: fs) t =
      .ok ((f0 :: fs).map fun f => some (iceRow t f)) := by
  unfold complex_n_ice_matzler06
  rw [if_neg h1]
  exact if_neg h2

theorem waterEps_eq_spec (t f : ℚ) :
    waterEps t f = waterSpecEps (t : ℝ) (f : ℝ) := by
  simp only [waterEps, waterSpecEps]
  push_cast
  ring

theorem iceEps_eq_spec (t f : ℚ) :
    iceEps t f = iceSpecEps (t : ℝ) (f : ℝ) := by
  simp only [iceEps, iceSpecEps, iceSpecReps]
  push_cast
  ring

/-- C1: for `complex_n_water_liebe93`, if the temperature lies outside
[233.15 K, 373.15 K], or the minimum of the frequency grid is below 10 GHz,
or its maximum is above 1000 GHz, the function returns — without raising —
a sequence of the same length as the grid with every row still the NaN fill,
computing no value for any frequency. -/
theorem water_out_of_range (freq : List ℚ) (t : ℚ)
    (h : (t < 233.15 ∨ t > 373.15) ∨
      (∃ f0 fs, freq = f0 :: fs ∧
        (fs.foldl min f0 < 10 ∨ fs.foldl max f0 > 1000))) :
    complex_n_water_liebe93 freq t = .ok (List.replicate freq.length none) := by
  by_cases ht : t < TEMP_0_C - 40 ∨ t > TEMP_0_C + 100
  · unfold complex_n_water_liebe93
    rw [if_pos ht]
  · rw [temp_lo, temp_hi] at ht
    rcases h with h | ⟨f0, fs, rfl, hf⟩
    · exact absurd h ht
    · unfold complex_n_water_liebe93
      rw [temp_lo, temp_hi, if_neg ht]
      exact if_pos hf

/-- C1 witness: water model at 200 K (below the lower bound) on the grid
[50 GHz] yields the one-row NaN fill. -/
theorem water_out_of_range_witness :
    complex_n_water_liebe93 [50] 200 =
      .ok (List.replicate ([50] : List ℚ).length none) :=
  water_out_of_range [50] 200 (Or.inl (Or.inl (by norm_num)))

/-- C2: for `complex_n_ice_matzler06`, if the temperature lies outside
[20 K, 280 K], or the minimum of the frequency grid is below 0.01 GHz, or its
maximum is above 3000 GHz, the function returns — without raising — a
sequence of the same length as the grid with every row still the NaN fill. -/
theorem ice_out_of_range (freq : List ℚ) (t : ℚ)
    (h : (t < 20 ∨ t > 280) ∨
      (∃ f0 fs, freq = f0 :: fs ∧
        (fs.foldl min f0 < 0.01 ∨ fs.foldl max f0 > 3000))) :
    complex_n_ice_matzler06 freq t = .ok (List.replicate freq.length none) := by
  by_cases ht : t < (20 : ℚ) ∨ t > (280 : ℚ)
  · unfold complex_n_ice_matzler06
    rw [if_pos ht]
  · rcases h with h | ⟨f0, fs, rfl, hf⟩
    · exact absurd h ht
    · unfold complex_n_ice_matzler06
      rw [if_neg ht]
      exact if_pos hf

/-- C2 witness: ice model at 10 K (below the lower bound) on the grid
[50 GHz] yields the one-row NaN fill. -/
theorem ice_out_of_range_witness :
    complex_n_ice_matzler06 [50] 10 =
      .ok (List.replicate ([50] : List ℚ).length none) :=
  ice_out_of_range [50] 10 (Or.inl (Or.inl (by norm_num)))

/-- C3: when the water model's validity guard passes, each output row is
`(Re n, Im n)` with `n` the principal complex square root of the spec's
permittivity `ε(f) = e2 + (e1−e2)/(1−i·f/f2) + (e0−e1)/(1−i·f/f1)`
(θ = 1 − 300/T, e0 = 77.66 − 103.3θ, e1 = 0.0671·e0,
f1 = 20.2 + 146θ + 316θ², e2 = 3.52, f2 = 39.8·f1); and at T = 300 K the
spec-side quantities give e0 = 77.66 and f1 = 20.2. -/
theorem water_formula_correct (f0 : ℚ) (fs : List ℚ) (t : ℚ)
    (h1 : ¬(t < 233.15 ∨ t > 373.15))
    (h2 : ¬(fs.foldl min f0 < 10 ∨ fs.foldl max f0 > 1000)) :
    complex_n_water_liebe93 (f0 :: fs) t =
      .ok ((f0 :: fs).map fun f : ℚ =>
        some ((csqrt (waterSpecEps (t : ℝ) (f : ℝ))).re,
              (csqrt (waterSpecEps (t : ℝ) (f : ℝ))).im)) ∧
    waterSpecE0 300 = 77.66 ∧ waterSpecF1 300 = 20.2 := by
  refine ⟨?_, by norm_num [waterSpecE0], by norm_num [waterSpecF1]⟩
  have h1' : ¬(t < TEMP_0_C - 40 ∨ t > TEMP_0_C + 100) := by
    rw [temp_lo, temp_hi]; exact h1
  rw [water_compute f0 fs t h1' h2]
  simp only [waterRow, waterEps_eq_spec]

/-- C3 witness: the formula theorem instantiated at T = 300 K on the grid
[100 GHz]. -/
theorem water_formula_correct_witness :
    complex_n_water_liebe93 [100] 300 =
      .ok (([100] : List ℚ).map fun f : ℚ =>
        some ((csqrt (waterSpecEps ((300 : ℚ) : ℝ) (f : ℝ))).re,
              (csqrt (waterSpecEps ((300 : ℚ) : ℝ) (f : ℝ))).im)) ∧
    waterSpecE0 300 = 77.66 ∧ waterSpecF1 300 = 20.2 :=
  water_formula_correct 100 [] 300 (by norm_num)
    (by norm_num [List.foldl_nil])

/-- C4: when the ice model's validity guard passes, each output row is
`(Re n, Im n)` with `n` the principal complex square root of the spec's
permittivity `ε(f) = reps + i·(α/f + β·f)` with `β = βm + B2·f² + Δβ`,
`Δβ = exp(−9.963 + 0.0372·(T−273))`, `βm = (B1/T)·e^(b/T)/(e^(b/T)−1)²`,
`θ = 300/T − 1`, `α = (0.00504 + 0.0062θ)·exp(−22.1θ)`,
`reps = 3.1884 + 9.1e−4·(T−273)`, B1 = 0.0207, B2 = 1.16e−11, b = 335;
and at T = 273 K the spec-side `reps` equals 3.1884. -/
theorem ice_formula_correct (f0 : ℚ) (fs : List ℚ) (t : ℚ)
    (h1 : ¬(t < 20 ∨ t > 280))
    (h2 : ¬(fs.foldl min f0 < 0.01 ∨ fs.foldl max f0 > 3000)) :
    complex_n_ice_matzler06 (f0 :: fs) t =
      .ok ((f0 :: fs).map fun f : ℚ =>
        some ((csqrt (iceSpecEps (t : ℝ) (f : ℝ))).re,
              (csqrt (iceSpecEps (t : ℝ) (f : ℝ))).im)) ∧
    iceSpecReps 273 = 3.1884 := by
  refine ⟨?_, by norm_num [iceSpecReps]⟩
  rw [ice_compute f0 fs t h1 h2]
  simp only [iceRow, iceEps_eq_spec]

/-- C4 witness: the formula theorem instantiated at T = 273 K on the grid
[100 GHz]. -/
theorem ice_formula_correct_witness :
    complex_n_ice_matzler06 [100] 273 =
      .ok (([100] : List ℚ).map fun f : ℚ =>
        some ((csqrt (iceSpecEps ((273 : ℚ) : ℝ) (f : ℝ))).re,
              (csqrt (iceSpecEps ((273 : ℚ) : ℝ) (f : ℝ))).im)) ∧
    iceSpecReps 273 = 3.1884 :=
  ice_formula_correct 100 [] 273 (by norm_num)
    (by norm_num [List.foldl_nil])

/-- C5: for both models, whenever a result sequence is returned (in-range or
out-of-range inputs alike), it has exactly as many rows as the input
frequency grid has elements. -/
theorem output_length_eq (freq : List ℚ) (t : ℚ) :
    (∀ out, complex_n_water_liebe93 freq t = .ok out →
       out.length = freq.length) ∧
    (∀ out, complex_n_ice_matzler06 freq t = .ok out →
       out.length = freq.length) := by
  constructor
  · intro out h
    unfold complex_n_water_liebe93 at h
    split at h
    · cases h; simp
    · split at h
      · cases h
      · rename_i f0 fs
        split at h
        · cases h; simp
        · cases h; simp
  · intro out h
    unfold complex_n_ice_matzler06 at h
    split at h
    · cases h; simp
    · split at h
      · cases h
      · rename_i f0 fs
        split at h
        · cases h; simp
        · cases h; simp

/-- Helper for the C5 witness: the water model on the grid [5 GHz] (below the
10 GHz floor) at 300 K returns the one-row NaN fill. -/
theorem water_at_5_300 : complex_n_water_liebe93 [5] 300 = .ok [none] := by
  unfold complex_n_water_liebe93
  rw [temp_lo, temp_hi, if_neg (by norm_num)]
  norm_num [List.foldl_nil, List.replicate]

/-- C5 witness: the length theorem applied to the concrete call on [5 GHz]
at 300 K, whose output is the one-row fill. -/
theorem output_length_eq_witness :
    ([none] : List NRow).length = ([5] : List ℚ).length :=
  (output_length_eq [5] 300).1 [none] water_at_5_300

/-- C6 counterexample: on the empty frequency grid at the in-range
temperature 300 K, the water model does not return an empty result — the
minimum reduction over the empty grid raises, modelled by the error value. -/
theorem empty_grid_counterexample :
    complex_n_water_liebe93 [] 300 = .error minEmptyMsg := by
  unfold complex_n_water_liebe93
  rw [temp_lo, temp_hi, if_neg (by norm_num)]

/-- C6 amended: on an empty frequency grid, each model returns the empty
result (the vacuous NaN fill) only when its temperature guard fires first;
when the temperature is inside the model's window, the minimum reduction over
the empty grid raises instead of returning. -/
theorem empty_grid_behavior (t : ℚ) :
    (complex_n_water_liebe93 [] t =
       if t < 233.15 ∨ t > 373.15 then .ok [] else .error minEmptyMsg) ∧
    (complex_n_ice_matzler06 [] t =
       if t < 20 ∨ t > 280 then .ok [] else .error minEmptyMsg) := by
  constructor
  · unfold complex_n_water_liebe93
    rw [temp_lo, temp_hi]
    by_cases h : t < (233.15 : ℚ) ∨ t > (373.15 : ℚ)
    · rw [if_pos h, if_pos h]; rfl
    · rw [if_neg h, if_neg h]
  · unfold complex_n_ice_matzler06
    by_cases h : t < (20 : ℚ) ∨ t > (280 : ℚ)
    · rw [if_pos h, if_pos h]; rfl
    · rw [if_neg h, if_neg h]

/-- C7: boundary inclusivity — on any in-range frequency grid the water model
at exactly 273.15 K, and the ice model at exactly 20 K and at exactly 280 K,
pass the validity guard and return computed rows (never the NaN fill). -/
theorem boundary_inclusive (f0 g0 : ℚ) (fs gs : List ℚ)
    (hw1 : 10 ≤ fs.foldl min f0) (hw2 : fs.foldl max f0 ≤ 1000)
    (hi1 : 0.01 ≤ gs.foldl min g0) (hi2 : gs.foldl max g0 ≤ 3000) :
    (complex_n_water_liebe93 (f0 :: fs) 273.15 =
       .ok ((f0 :: fs).map fun f => some (waterRow 273.15 f)) ∧
     ∀ r ∈ (f0 :: fs).map fun f => some (waterRow 273.15 f), r ≠ none) ∧
    (complex_n_ice_matzler06 (g0 :: gs) 20 =
       .ok ((g0 :: gs).map fun f => some (iceRow 20 f)) ∧
     ∀ r ∈ (g0 :: gs).map fun f => some (iceRow 20 f), r ≠ none) ∧
    (complex_n_ice_matzler06 (g0 :: gs) 280 =
       .ok ((g0 :: gs).map fun f => some (iceRow 280 f)) ∧
     ∀ r ∈ (g0 :: gs).map fun f => some (iceRow 280 f), r ≠ none) := by
  have hwg : ¬(fs.foldl min f0 < 10 ∨ fs.foldl max f0 > 1000) := by
    push_neg; exact ⟨hw1, hw2⟩
  have hig : ¬(gs.foldl min g0 < 0.01 ∨ gs.foldl max g0 > 3000) := by
    push_neg; exact ⟨hi1, hi2⟩
  have hrow : ∀ (l : List ℚ) (g : ℚ → ℝ × ℝ),
      ∀ r ∈ l.map fun f => some (g f), r ≠ none := by
    intro l g r hr
    rcases List.mem_map.1 hr with ⟨f, _, rfl⟩
    exact Option.some_ne_none _
  refine ⟨⟨water_compute _ _ _ ?_ hwg, hrow _ _⟩,
          ⟨ice_compute _ _ _ (by norm_num) hig, hrow _ _⟩,
          ⟨ice_compute _ _ _ (by norm_num) hig, hrow _ _⟩⟩
  rw [temp_lo, temp_hi]; norm_num

/-- C7 witness: the boundary theorem instantiated on the one-point grid
[100 GHz] for both models. -/
theorem boundary_inclusive_witness :
    (complex_n_water_liebe93 [100] 273.15 =
       .ok (([100] : List ℚ).map fun f => some (waterRow 273.15 f)) ∧
     ∀ r ∈ ([100] : List ℚ).map fun f => some (waterRow 273.15 f), r ≠ none) ∧
    (complex_n_ice_matzler06 [100] 20 =
       .ok (([100] : List ℚ).map fun f => some (iceRow 20 f)) ∧
     ∀ r ∈ ([100] : List ℚ).map fun f => some (iceRow 20 f), r ≠ none) ∧
    (complex_n_ice_matzler06 [100] 280 =
       .ok (([100] : List ℚ).map fun f => some (iceRow 280 f)) ∧
     ∀ r ∈ ([100] : List ℚ).map fun f => some (iceRow 280 f), r ≠ none) :=
  boundary_inclusive 100 100 [] [] (by norm_num [List.foldl_nil])
    (by norm_num [List.foldl_nil]) (by norm_num [List.foldl_nil])
    (by norm_num [List.foldl_nil])

/-- C8: for both models, for any grid and temperature inside the validity
window, every computed real-part component of the output is nonnegative
(principal square-root branch). -/
theorem re_nonneg_in_window (f0 g0 : ℚ) (fs gs : List ℚ) (tw ti : ℚ)
    (htw1 : 233.15 ≤ tw) (htw2 : tw ≤ 373.15)
    (hw1 : 10 ≤ fs.foldl min f0) (hw2 : fs.foldl max f0 ≤ 1000)
    (hti1 : 20 ≤ ti) (hti2 : ti ≤ 280)
    (hi1 : 0.01 ≤ gs.foldl min g0) (hi2 : gs.foldl max g0 ≤ 3000) :
    (∃ out, complex_n_water_liebe93 (f0 :: fs) tw = .ok out ∧
       ∀ r ∈ out, ∀ p : ℝ × ℝ, r = some p → 0 ≤ p.1) ∧
    (∃ out, complex_n_ice_matzler06 (g0 :: gs) ti = .ok out ∧
       ∀ r ∈ out, ∀ p : ℝ × ℝ, r = some p → 0 ≤ p.1) := by
  have hwg : ¬(fs.foldl min f0 < 10 ∨ fs.foldl max f0 > 1000) := by
    push_neg; exact ⟨hw1, hw2⟩
  have hig : ¬(gs.foldl min g0 < 0.01 ∨ gs.foldl max g0 > 3000) := by
    push_neg; exact ⟨hi1, hi2⟩
  have hwt : ¬(tw < TEMP_0_C - 40 ∨ tw > TEMP_0_C + 100) := by
    rw [temp_lo, temp_hi]; push_neg; exact ⟨htw1, htw2⟩
  have hit : ¬(ti < 20 ∨ ti > 280) := by push_neg; exact ⟨hti1, hti2⟩
  constructor
  · refine ⟨_, water_compute f0 fs tw hwt hwg, ?_⟩
    intro r hr p hp
    rcases List.mem_map.1 hr with ⟨f, _, rfl⟩
    cases Option.some_injective _ hp
    exact csqrt_re_nonneg _
  · refine ⟨_, ice_compute g0 gs ti hit hig, ?_⟩
    intro r hr p hp
    rcases List.mem_map.1 hr with ⟨f, _, rfl⟩
    cases Option.some_injective _ hp
    exact csqrt_re_nonneg _

/-- C8 witness: the nonnegativity theorem instantiated at 300 K (water) and
270 K (ice) on the one-point grid [100 GHz]. -/
theorem re_nonneg_in_window_witness :
    (∃ out, complex_n_water_liebe93 [100] 300 = .ok out ∧
       ∀ r ∈ out, ∀ p : ℝ × ℝ, r = some p → 0 ≤ p.1) ∧
    (∃ out, complex_n_ice_matzler06 [100] 270 = .ok out ∧
       ∀ r ∈ out, ∀ p : ℝ × ℝ, r = some p → 0 ≤ p.1) :=
  re_nonneg_in_window 100 100 [] [] 300 270 (by norm_num) (by norm_num)
    (by norm_num [List.foldl_nil]) (by norm_num [List.foldl_nil])
    (by norm_num) (by norm_num) (by norm_num [List.foldl_nil])
    (by norm_num [List.foldl_nil])

/-- C9: determinism — both embedded functions are pure (the source keeps no
state between invocations), so two calls with identical frequency grid and
identical temperature return identical output sequences. -/
theorem deterministic (freq₁ freq₂ : List ℚ) (t₁ t₂ : ℚ)
    (hf : freq₁ = freq₂) (ht : t₁ = t₂) :
    complex_n_water_liebe93 freq₁ t₁ = complex_n_water_liebe93 freq₂ t₂ ∧
    complex_n_ice_matzler06 freq₁ t₁ = complex_n_ice_matzler06 freq₂ t₂ := by
  subst hf; subst ht; exact ⟨rfl, rfl⟩

/-- C9 witness: two identical calls on [50 GHz] at 300 K agree. -/
theorem deterministic_witness :
    complex_n_water_liebe93 [50] 300 = complex_n_water_liebe93 [50] 300 ∧
    complex_n_ice_matzler06 [50] 300 = complex_n_ice_matzler06 [50] 300 :=
  deterministic [50] [50] 300 300 rfl rfl

/-- C10: whenever the loop body of `complex_n_ice_matzler06` is reached (both
guards have passed, so the computed rows are produced), the frequency guard
has ensured that every frequency in the grid is at least 0.01 GHz, hence
strictly positive and a nonzero divisor in `alfa / f`. -/
theorem ice_loop_divisor_pos (f0 : ℚ) (fs : List ℚ) (t : ℚ)
    (h1 : ¬(t < 20 ∨ t > 280))
    (h2 : ¬(fs.foldl min f0 < 0.01 ∨ fs.foldl max f0 > 3000)) :
    complex_n_ice_matzler06 (f0 :: fs) t =
      .ok ((f0 :: fs).map fun f => some (iceRow t f)) ∧
    ∀ f ∈ f0 :: fs, 0 < f ∧ ((f : ℝ)) ≠ 0 := by
  refine ⟨ice_compute f0 fs t h1 h2, ?_⟩
  push_neg at h2
  intro f hf
  have hmin := foldl_min_le fs f0 hf
  have hpos : (0 : ℚ) < f := lt_of_lt_of_le (by norm_num) (h2.1.trans hmin)
  refine ⟨hpos, ?_⟩
  exact_mod_cast ne_of_gt hpos

/-- C10 witness: the divisor-positivity theorem instantiated on the grid
[100 GHz] at 270 K. -/
theorem ice_loop_divisor_pos_witness :
    complex_n_ice_matzler06 [100] 270 =
      .ok (([100] : List ℚ).map fun f => some (iceRow 270 f)) ∧
    ∀ f ∈ ([100] : List ℚ), 0 < f ∧ ((f : ℝ)) ≠ 0 :=
  ice_loop_divisor_pos 100 [] 270 (by norm_num)
    (by norm_num [List.foldl_nil])
